import Mathlib

/-!
Shallow embedding of the tracking-system repository (src/server.js and
src/public/tracker.js) and verification of its specification claims.

Modelling conventions:
* JavaScript strings are modelled as Lean `String`; `charCodeAt` is modelled
  by `Char.toNat` (the strings involved here are plain ASCII, where the two
  notions coincide).
* Absent (`undefined`/`null`) JavaScript values are modelled as `none`;
  the JS truthiness test on a string treats `none` and the empty string as
  falsy (`jsOr`, `truthy`).
* 32-bit signed truncation (the effect of the JS `|`, `&` and `<<`
  operators) is `toInt32`.
* Fields of the records that no server-side logic reads (timestamps, the
  nondeterministic `id`, the echoed geolocation payload fields) are omitted
  from `SessionRecord`; they are never consulted by any claim.
* The floating-point arithmetic of the stats endpoint is modelled by exact
  rational arithmetic represented as numerator/denominator pairs of
  naturals (`toFixed1`).
-/

/-! ### JavaScript primitives -/

/-- Truncation to a 32-bit signed integer, the effect of the JS bitwise
operators used in the rolling hash (`x & x`, and `<<` on an in-range
operand). -/
def toInt32 (x : Int) : Int :=
  (x + 2147483648) % 4294967296 - 2147483648

/-- The JS idiom `a || d` for a possibly absent string `a`: `undefined`,
`null` and the empty string are falsy and yield the default. -/
def jsOr : Option String → String → String
  | none, d => d
  | some s, d => if s = "" then d else s

/-- JS truthiness of a possibly absent string. -/
def truthy : Option String → Bool
  | none => false
  | some s => !(s == "")

/-- Lowercase hexadecimal rendering of a natural number, the behaviour of
JS `Number.prototype.toString(16)` on a non-negative integer. -/
def natToHex (n : Nat) : String :=
  String.mk (Nat.toDigits 16 n)

/-- JS `String.prototype.padStart(len, c)`. -/
def padStart (len : Nat) (c : Char) (s : String) : String :=
  String.mk (List.replicate (len - s.length) c) ++ s

/-- Whitespace characters stripped by JS `parseInt`. -/
def isJsSpace (c : Char) : Bool :=
  c == ' ' || c == '\t' || c == '\n' || c == '\r' || c == '\x0b' || c == '\x0c'

/-- Value of a digit character under the given radix (10 or 16, the two
radixes reachable from `parseInt` with no explicit radix argument). -/
def digitVal (radix : Nat) (c : Char) : Option Nat :=
  let v : Option Nat :=
    if '0' ≤ c ∧ c ≤ '9' then some (c.toNat - 48)
    else if 'a' ≤ c ∧ c ≤ 'f' then some (c.toNat - 87)
    else if 'A' ≤ c ∧ c ≤ 'F' then some (c.toNat - 55)
    else none
  match v with
  | some d => if d < radix then some d else none
  | none => none

/-- JS `parseInt(s)` with no radix argument: skip leading whitespace, an
optional sign, an optional `0x`/`0X` hexadecimal prefix, then the longest
prefix of digits; `none` models `NaN`. -/
def parseIntJS (s : String) : Option Int :=
  let cs := s.data.dropWhile isJsSpace
  let sign : Int := match cs with | '-' :: _ => -1 | _ => 1
  let cs2 := match cs with | '-' :: r => r | '+' :: r => r | _ => cs
  let rcs : Nat × List Char :=
    match cs2 with
    | '0' :: 'x' :: r => (16, r)
    | '0' :: 'X' :: r => (16, r)
    | _ => (10, cs2)
  let ds := ((rcs.2.map (digitVal rcs.1)).takeWhile Option.isSome).map (fun o => o.getD 0)
  if ds.isEmpty then none
  else some (sign * Int.ofNat (ds.foldl (fun a d => a * rcs.1 + d) 0))

/-- JS `Array.prototype.slice(start)` (single-argument form): a negative
start counts from the end of the array. -/
def jsSlice {α : Type} (xs : List α) (start : Int) : List α :=
  let len : Int := xs.length
  let s : Int := if start < 0 then max (len + start) 0 else min start len
  xs.drop s.toNat

/-- JS `Number.prototype.toFixed(1)` applied to the non-negative exact
rational `num / den` (`den ≠ 0`): round to the nearest multiple of 1/10,
ties away from zero, and print with exactly one decimal.  The source
computes this value in binary floating point; the embedding uses the exact
rational value. -/
def toFixed1 (num den : Nat) : String :=
  let n := (num * 10 * 2 + den) / (2 * den)
  toString (n / 10) ++ "." ++ toString (n % 10)

/-! ### The rolling hash (server.js lines 30–36, tracker.js lines 27–35) -/

/-- The rolling-hash loop of `generateVisitorID` (server.js lines 30–35):
`hash = ((hash << 5) - hash) + charCode; hash = hash & hash`.  Within the
loop the accumulator is always a 32-bit signed integer, so `hash << 5` is
`toInt32 (hash * 32)`. -/
def serverHash (s : String) : Int :=
  s.data.foldl (fun h c => toInt32 (toInt32 (h * 32) - h + c.toNat)) 0

/-- The final step of `generateVisitorID` (server.js line 36):
`Math.abs(hash).toString(16)`. -/
def serverHashHex (s : String) : String :=
  natToHex (serverHash s).natAbs

/-- Client-side fallback hash `simpleHash` (tracker.js lines 27–35): the
same rolling loop, then `Math.abs(hash).toString(16).padStart(16, '0')`. -/
def simpleHash (s : String) : String :=
  padStart 16 '0'
    (natToHex (Int.natAbs
      (s.data.foldl (fun h c => toInt32 (toInt32 (h * 32) - h + c.toNat)) 0)))

/-! ### Server data model (server.js) -/

/-- The request body of `POST /api/track`, restricted to the fields the
server-side logic reads (`generateVisitorID`, `detectChanges`, the stored
record).  All fields are client-supplied and may be absent. -/
structure TrackData where
  ip : Option String
  audioSignature : Option String
  audioSignatureRaw : Option String
  userAgent : Option String
  platform : Option String
  fingerprint : Option String
  city : Option String
  screen : Option String
deriving DecidableEq, Inhabited

/-- The four per-field diff flags computed by `detectChanges`
(server.js lines 41–46). -/
structure Changes where
  locationChanged : Bool
  deviceChanged : Bool
  screenChanged : Bool
  ipChanged : Bool
deriving DecidableEq, Inhabited

/-- A stored session (the `sessionData` object of server.js lines 88–140),
restricted to the fields read back by the server (`detectChanges` and the
stats endpoint) together with the computed flags.  The nondeterministic
`id`/timestamp fields and the echoed geolocation payload are omitted: no
server logic reads them. -/
structure SessionRecord where
  visitorID : String
  fingerprint : Option String
  audioSignature : Option String
  audioSignatureRaw : Option String
  clientIP : Option String
  city : Option String
  screen : Option String
  userAgent : Option String
  platform : Option String
  locationChanged : Bool
  deviceChanged : Bool
  screenChanged : Bool
  ipChanged : Bool
  isReturning : Bool
deriving DecidableEq, Inhabited

/-- A visitor aggregate (the value stored in the `visitors` map,
server.js lines 160–167).  The `firstSeen`/`lastSeen` wall-clock fields are
omitted (nondeterministic, never read back). -/
structure Visitor where
  visitorID : String
  fingerprint : Option String
  visits : Nat
  sessions : List SessionRecord
deriving DecidableEq, Inhabited

/-- The in-memory store (server.js lines 17–18): the `visitors` map,
modelled as an insertion-ordered association list (JS `Map` iterates in
insertion order and `set` on an existing key updates in place), and the
global `sessions` array. -/
structure State where
  visitors : List (String × Visitor)
  sessions : List SessionRecord
deriving DecidableEq, Inhabited

/-- The initial store: both collections empty. -/
def state0 : State := { visitors := [], sessions := [] }

/-- JS `Map.prototype.get`. -/
def mapGet (k : String) (m : List (String × Visitor)) : Option Visitor :=
  (m.find? (fun p => p.1 == k)).map (fun p => p.2)

/-- JS `Map.prototype.set`: update the entry for `k` in place if present,
otherwise append a new entry. -/
def mapSet (k : String) (v : Visitor) : List (String × Visitor) → List (String × Visitor)
  | [] => [(k, v)]
  | p :: rest => if p.1 == k then (k, v) :: rest else p :: mapSet k v rest

/-- Embedding of `generateVisitorID` (server.js lines 21–37). -/
def generateVisitorID (data : TrackData) : String :=
  serverHashHex (String.intercalate "||"
    [jsOr data.ip "unknown",
     jsOr data.audioSignatureRaw (jsOr data.audioSignature "unknown"),
     jsOr data.userAgent "unknown",
     jsOr data.platform "unknown"])

/-- Embedding of `detectChanges` (server.js lines 40–68). -/
def detectChanges : Option SessionRecord → TrackData → Changes
  | none, _ => ⟨false, false, false, false⟩
  | some lastSession, currentData =>
    { locationChanged :=
        (lastSession.city != currentData.city) && (currentData.city != some "N/D")
      deviceChanged :=
        (lastSession.audioSignature != currentData.audioSignature) &&
          (currentData.audioSignature != some "N/D")
      screenChanged := lastSession.screen != currentData.screen
      ipChanged := lastSession.clientIP != currentData.ip }

/-- The previous session the diff is computed against (server.js line 85):
the last element of the existing visitor's session list, `none` for a new
visitor. -/
def lastSessionOf (st : State) (vid : String) : Option SessionRecord :=
  (mapGet vid st.visitors).bind (fun v => v.sessions.getLast?)

/-- The `sessionData` object built by the `POST /api/track` handler
(server.js lines 88–140), restricted to the modelled fields. -/
def mkSession (st : State) (data : TrackData) : SessionRecord :=
  let visitorID := generateVisitorID data
  let changes := detectChanges (lastSessionOf st visitorID) data
  { visitorID := visitorID
    fingerprint := data.fingerprint
    audioSignature := data.audioSignature
    audioSignatureRaw := data.audioSignatureRaw
    clientIP := data.ip
    city := data.city
    screen := data.screen
    userAgent := data.userAgent
    platform := data.platform
    locationChanged := changes.locationChanged
    deviceChanged := changes.deviceChanged
    screenChanged := changes.screenChanged
    ipChanged := changes.ipChanged
    isReturning := (mapGet visitorID st.visitors).isSome }

/-- The state transition of a successful `POST /api/track` ingestion
(server.js lines 71–189): a returning visitor gets its counter incremented
and the record appended to its list; a new visitor gets a fresh aggregate
with counter 1; in both cases the record is appended to the global log. -/
def apiTrack (st : State) (data : TrackData) : State :=
  match mapGet (generateVisitorID data) st.visitors with
  | some v =>
    { visitors := mapSet (generateVisitorID data)
        { v with visits := v.visits + 1,
                 sessions := v.sessions ++ [mkSession st data] } st.visitors
      sessions := st.sessions ++ [mkSession st data] }
  | none =>
    { visitors := mapSet (generateVisitorID data)
        { visitorID := generateVisitorID data, fingerprint := data.fingerprint,
          visits := 1, sessions := [mkSession st data] } st.visitors
      sessions := st.sessions ++ [mkSession st data] }

/-- The `GET /api/sessions` handler (server.js lines 192–201):
`limit = parseInt(req.query.limit) || 50`, then
`sessions.slice(-limit).reverse()`. -/
def apiSessions (log : List SessionRecord) (limitParam : Option String) : List SessionRecord :=
  let limit : Int :=
    match limitParam.bind parseIntJS with
    | none => 50
    | some n => if n == 0 then 50 else n
  (jsSlice log (-limit)).reverse

/-- The returning-visitor count of the stats endpoint
(server.js lines 244–247): visitors whose counter exceeds 1. -/
def countReturning (m : List (String × Visitor)) : Nat :=
  m.countP (fun p => decide (1 < p.2.visits))

/-- The `returnRate` field of the `GET /api/stats` response
(server.js lines 249–251 and 259): `((returning / unique) * 100).toFixed(1)`
when there is at least one visitor, the number `0` otherwise, concatenated
with `'%'` (so the no-visitor case renders as the string `0%`). -/
def statsReturnRate (st : State) : String :=
  let uniqueVisitors := st.visitors.length
  let returningVisitors := countReturning st.visitors
  if 0 < uniqueVisitors then toFixed1 (returningVisitors * 100) uniqueVisitors ++ "%"
  else "0%"

/-! ### Client geolocation resolver (tracker.js lines 112–162) -/

/-- The normalized location record `fetchIPData` produces.  Field values
are opaque strings; `none` models `null`/`undefined`. -/
structure GeoData where
  ip : Option String
  city : Option String
  region : Option String
  country_code : Option String
  country_name : Option String
  timezone : Option String
  utc_offset : Option String
  org : Option String
  country_population : Option String
  country_calling_code : Option String
  currency_name : Option String
  currency : Option String
  languages : Option String
  country_capital : Option String
  latitude : Option String
  longitude : Option String
deriving DecidableEq, Inhabited

/-- Response body of the primary provider (ipapi.co): a possible `error`
field plus the rich location payload returned as-is. -/
structure IpapiBody where
  error : Bool
  geo : GeoData
deriving DecidableEq, Inhabited

/-- Response body of the secondary provider (ip-api.com). -/
structure IpApiComBody where
  status : String
  query : Option String
  city : Option String
  regionName : Option String
  countryCode : Option String
  country : Option String
  timezone : Option String
  isp : Option String
  lat : Option String
  lon : Option String
deriving DecidableEq, Inhabited

/-- Response body of the tertiary provider (api.ipify.org). -/
structure IpifyBody where
  ip : Option String
deriving DecidableEq, Inhabited

/-- Outcome of one provider fetch: `none` when `fetch`/`json()` itself
throws (network failure), otherwise the HTTP `ok` flag and the parsed
body. -/
def ProviderOutcome (β : Type) : Type := Option (Bool × β)

/-- The all-sentinel record built on the tertiary path
(tracker.js lines 150–159): descriptive fields `N/D`, the rest absent. -/
def sentinelGeo (ip : Option String) : GeoData :=
  { ip := ip
    city := some "N/D"
    region := some "N/D"
    country_code := some "N/D"
    country_name := some "N/D"
    timezone := none
    utc_offset := none
    org := some "N/D"
    country_population := none
    country_calling_code := none
    currency_name := none
    currency := none
    languages := none
    country_capital := none
    latitude := none
    longitude := none }

/-- Tertiary tier of `fetchIPData` (tracker.js lines 145–159).  This code
runs inside the secondary tier's catch block with no try of its own, so
its throws propagate out of `fetchIPData`. -/
def ipifyTier (t : ProviderOutcome IpifyBody) : Except String GeoData :=
  match t with
  | some (true, b) =>
    if truthy b.ip then Except.ok (sentinelGeo b.ip) else Except.error "ipify falhou"
  | some (false, _) => Except.error "ipify falhou"
  | none => Except.error "fetch failed"

/-- Secondary tier of `fetchIPData` (tracker.js lines 120–144): requires
HTTP ok and `status === "success"`, normalizes the schema with `null` for
unavailable fields; any failure falls through to the tertiary tier. -/
def ipApiComTier (s : ProviderOutcome IpApiComBody) (t : ProviderOutcome IpifyBody) :
    Except String GeoData :=
  match s with
  | some (true, b) =>
    if b.status == "success" then
      Except.ok
        { ip := b.query
          city := b.city
          region := b.regionName
          country_code := b.countryCode
          country_name := b.country
          timezone := b.timezone
          utc_offset := none
          org := b.isp
          country_population := none
          country_calling_code := none
          currency_name := none
          currency := none
          languages := none
          country_capital := none
          latitude := b.lat
          longitude := b.lon }
    else ipifyTier t
  | _ => ipifyTier t

/-- Embedding of `fetchIPData` (tracker.js lines 112–162) as a function of
the three provider outcomes: primary requires HTTP ok, no `error` field and
a truthy `ip`, otherwise the secondary tier runs, otherwise the tertiary.
`Except.error` models an exception propagating out of the function. -/
def fetchIPData (p : ProviderOutcome IpapiBody) (s : ProviderOutcome IpApiComBody)
    (t : ProviderOutcome IpifyBody) : Except String GeoData :=
  match p with
  | some (true, b) =>
    if !b.error && truthy b.geo.ip then Except.ok b.geo else ipApiComTier s t
  | _ => ipApiComTier s t

/-- Whether a result is a normal return (no exception). -/
def geoOk : Except String GeoData → Bool
  | Except.ok _ => true
  | Except.error _ => false

/-- Success predicate of the primary tier. -/
def tier1Success (p : ProviderOutcome IpapiBody) : Bool :=
  match p with
  | some (true, b) => !b.error && truthy b.geo.ip
  | _ => false

/-- Success predicate of the secondary tier. -/
def tier2Success (s : ProviderOutcome IpApiComBody) : Bool :=
  match s with
  | some (true, b) => b.status == "success"
  | _ => false

/-- Success predicate of the tertiary tier. -/
def tier3Success (t : ProviderOutcome IpifyBody) : Bool :=
  match t with
  | some (true, b) => truthy b.ip
  | _ => false

/-! ### Specification-side definition for the VisitorID refinement claim -/

/-- Modelled from the spec (§4.3): concatenate the four defaulted inputs
with the fixed separator, fold each character into
`hash = hash * 31 + charCode` truncated to 32-bit signed, and output the
absolute value in hexadecimal. -/
def visitorIDSpec (data : TrackData) : String :=
  let str := String.intercalate "||"
    [jsOr data.ip "unknown",
     jsOr data.audioSignatureRaw (jsOr data.audioSignature "unknown"),
     jsOr data.userAgent "unknown",
     jsOr data.platform "unknown"]
  natToHex (Int.natAbs (str.data.foldl (fun h c => toInt32 (h * 31 + c.toNat)) 0))

/-! ### Concrete data used by counterexamples and witnesses -/

/-- A first session for one visitor: full payload, ordinary screen value. -/
def sampleA : TrackData :=
  { ip := some "203.0.113.7"
    audioSignature := some "ABCD1234"
    audioSignatureRaw := some "12345"
    userAgent := some "Mozilla/5.0"
    platform := some "Linux"
    fingerprint := some "fp-a"
    city := some "Lisboa"
    screen := some "1920x1080" }

/-- A second session of the same visitor (identical identity fields) whose
screen field carries the sentinel value. -/
def sampleA2 : TrackData := { sampleA with screen := some "N/D" }

/-- The same payload with a different fingerprint only (the fingerprint is
not one of the four VisitorID inputs). -/
def sampleA3 : TrackData := { sampleA with fingerprint := some "fp-other" }

/-- A second visitor: different declared IP, hence a different VisitorID. -/
def sampleB : TrackData :=
  { sampleA with ip := some "198.51.100.8", fingerprint := some "fp-b" }

/-- A concrete tertiary-provider body carrying only an IP. -/
def ipifySample : IpifyBody := { ip := some "9.9.9.9" }

/-! ### Arithmetic lemmas about the rolling hash -/

/-- Truncation only depends on the residue modulo 2^32. -/
theorem toInt32_congr {x y : Int} (h : x % 4294967296 = y % 4294967296) :
    toInt32 x = toInt32 y := by
  unfold toInt32
  omega

/-- Truncation preserves the residue modulo 2^32. -/
theorem toInt32_emod (x : Int) : toInt32 x % 4294967296 = x % 4294967296 := by
  unfold toInt32
  omega

/-- One step of the source loop `((h << 5) - h) + c` followed by `h & h`
equals the spec's `h * 31 + c` truncated to 32-bit signed. -/
theorem hashStep_eq (h : Int) (c : Nat) :
    toInt32 (toInt32 (h * 32) - h + c) = toInt32 (h * 31 + c) := by
  apply toInt32_congr
  have h32 := toInt32_emod (h * 32)
  omega

/-- The whole rolling loop agrees with the spec's `h * 31 + c` fold. -/
theorem serverHash_eq_specFold (s : String) :
    serverHash s = s.data.foldl (fun h c => toInt32 (h * 31 + c.toNat)) 0 := by
  unfold serverHash
  exact List.foldl_ext _ _ 0 (fun a b _ => hashStep_eq a b.toNat)

/-! ### C2: the VisitorID algorithm -/

/-- C2: `generateVisitorID` is a deterministic function of exactly the four
identity inputs (declared IP, raw-else-processed audio signature, user
agent, platform, each defaulted to "unknown"): two payloads agreeing on
those fields hash identically, and the result equals the spec's algorithm
(join with the fixed separator, fold `hash * 31 + charCode` truncated to
32-bit signed, output the absolute value in hexadecimal). -/
theorem generateVisitorID_spec (d d2 : TrackData)
    (h1 : d.ip = d2.ip) (h2 : d.audioSignatureRaw = d2.audioSignatureRaw)
    (h3 : d.audioSignature = d2.audioSignature) (h4 : d.userAgent = d2.userAgent)
    (h5 : d.platform = d2.platform) :
    generateVisitorID d = generateVisitorID d2 ∧
      generateVisitorID d = visitorIDSpec d := by
  constructor
  · unfold generateVisitorID
    rw [h1, h2, h3, h4, h5]
  · unfold generateVisitorID visitorIDSpec serverHashHex
    rw [serverHash_eq_specFold]

/-- Witness for C2 at a concrete input: `sampleA3` differs from `sampleA`
only in the fingerprint, which is not an identity input. -/
theorem generateVisitorID_spec_witness :
    (sampleA.ip = sampleA3.ip ∧ sampleA.audioSignatureRaw = sampleA3.audioSignatureRaw ∧
      sampleA.audioSignature = sampleA3.audioSignature ∧
      sampleA.userAgent = sampleA3.userAgent ∧ sampleA.platform = sampleA3.platform) ∧
    (generateVisitorID sampleA = generateVisitorID sampleA3 ∧
      generateVisitorID sampleA = visitorIDSpec sampleA) :=
  ⟨⟨rfl, rfl, rfl, rfl, rfl⟩,
    generateVisitorID_spec sampleA sampleA3 rfl rfl rfl rfl rfl⟩

/-! ### C3: client fallback hash versus server hash -/

/-- C3 counterexample: the claim that `simpleHash` produces the same
hexadecimal output as the server-side hash step fails already on the empty
string: the client pads to 16 hex digits, the server does not. -/
theorem simpleHash_ne_serverHashHex :
    simpleHash "" ≠ serverHashHex "" ∧
      simpleHash "" = "0000000000000000" ∧ serverHashHex "" = "0" := by
  refine ⟨?_, rfl, rfl⟩
  decide

/-- C3 amended: the two sides run the same rolling-hash algorithm, and the
client output is exactly the server output left-padded with zeros to 16
characters. -/
theorem simpleHash_eq_padded_serverHash (s : String) :
    simpleHash s = padStart 16 '0' (serverHashHex s) := rfl

/-! ### C1: diff flags -/

set_option maxRecDepth 100000

/-- C1 counterexample: the claim that every flag is raised only when the
new value is not the sentinel fails for `screenChanged` — ingesting the
same visitor twice, the second time with `screen = "N/D"`, sets
`screenChanged` on the second stored session even though the new value is
the sentinel. -/
theorem screenChanged_sentinel_counterexample :
    ((apiTrack (apiTrack state0 sampleA) sampleA2).sessions.map
        (fun r => r.screenChanged)) = [false, true] ∧
      sampleA2.screen = some "N/D" := by
  refine ⟨?_, rfl⟩
  decide

/-- C1 amended: on a visitor's first ingested session all four flags are
false; on a later session, `locationChanged` and `deviceChanged` are raised
iff the field differs from the visitor's immediately preceding session AND
the new value is not the sentinel "N/D", while `screenChanged` and
`ipChanged` are raised iff the field differs, with no sentinel guard. -/
theorem detectChanges_flag_spec (st : State) (d : TrackData) :
    (lastSessionOf st (generateVisitorID d) = none →
      (mkSession st d).locationChanged = false ∧
      (mkSession st d).deviceChanged = false ∧
      (mkSession st d).screenChanged = false ∧
      (mkSession st d).ipChanged = false) ∧
    (∀ ls, lastSessionOf st (generateVisitorID d) = some ls →
      ((mkSession st d).locationChanged = true ↔
          ls.city ≠ d.city ∧ d.city ≠ some "N/D") ∧
      ((mkSession st d).deviceChanged = true ↔
          ls.audioSignature ≠ d.audioSignature ∧ d.audioSignature ≠ some "N/D") ∧
      ((mkSession st d).screenChanged = true ↔ ls.screen ≠ d.screen) ∧
      ((mkSession st d).ipChanged = true ↔ ls.clientIP ≠ d.ip)) := by
  constructor
  · intro h
    simp [mkSession, h, detectChanges]
  · intro ls h
    simp [mkSession, h, detectChanges, Bool.and_eq_true, bne_iff_ne, ne_eq]

/-- Witness for C1 (amended) at a concrete input: in the empty store there
is no prior session and all flags of the built record are false. -/
theorem detectChanges_flag_spec_witness :
    lastSessionOf state0 (generateVisitorID sampleA) = none ∧
      ((mkSession state0 sampleA).locationChanged = false ∧
       (mkSession state0 sampleA).deviceChanged = false ∧
       (mkSession state0 sampleA).screenChanged = false ∧
       (mkSession state0 sampleA).ipChanged = false) :=
  ⟨rfl, (detectChanges_flag_spec state0 sampleA).1 rfl⟩

/-! ### Store lemmas -/

/-- Total number of stored sessions across all visitor aggregates. -/
def visitorsSessionCount (m : List (String × Visitor)) : Nat :=
  (m.map (fun p => p.2.sessions.length)).sum

/-- Ingestion appends exactly the built record to the global log. -/
theorem apiTrack_sessions (st : State) (d : TrackData) :
    (apiTrack st d).sessions = st.sessions ++ [mkSession st d] := by
  unfold apiTrack
  cases mapGet (generateVisitorID d) st.visitors <;> rfl

/-- Membership after a map update: an element is the new entry or was
already present. -/
theorem mem_mapSet {p : String × Visitor} {k : String} {v : Visitor} :
    ∀ {m : List (String × Visitor)}, p ∈ mapSet k v m → p = (k, v) ∨ p ∈ m := by
  intro m
  induction m with
  | nil =>
    intro h
    simp [mapSet] at h
    exact Or.inl h
  | cons q rest ih =>
    intro h
    by_cases hk : (q.1 == k) = true
    · simp [mapSet, hk] at h
      rcases h with h | h
      · exact Or.inl (by simp [h])
      · exact Or.inr (List.mem_cons_of_mem _ h)
    · simp [mapSet, hk] at h
      rcases h with h | h
      · exact Or.inr (by simp [h])
      · rcases ih h with h2 | h2
        · exact Or.inl h2
        · exact Or.inr (List.mem_cons_of_mem _ h2)

/-- A successful lookup returns the value of some stored entry. -/
theorem mapGet_eq_some_mem {k : String} {v : Visitor} {m : List (String × Visitor)}
    (h : mapGet k m = some v) : ∃ k2, (k2, v) ∈ m := by
  unfold mapGet at h
  cases hf : m.find? (fun p => p.1 == k) with
  | none => rw [hf] at h; cases h
  | some q =>
    rw [hf] at h
    simp at h
    refine ⟨q.1, ?_⟩
    have hq : q ∈ m := List.mem_of_find?_eq_some hf
    have : (q.1, v) = q := by
      cases q
      simp at h ⊢
      exact h.symm
    rw [this]
    exact hq

/-- Updating an absent key appends one entry. -/
theorem visitorsSessionCount_mapSet_none {k : String} {v : Visitor} :
    ∀ {m : List (String × Visitor)}, mapGet k m = none →
      visitorsSessionCount (mapSet k v m) = visitorsSessionCount m + v.sessions.length := by
  intro m
  induction m with
  | nil =>
    intro _
    simp [mapSet, visitorsSessionCount]
  | cons q rest ih =>
    intro h
    by_cases hk : (q.1 == k) = true
    · exfalso
      simp [mapGet, List.find?, hk] at h
    · have h2 : mapGet k rest = none := by
        simp [mapGet, List.find?, hk] at h ⊢
        exact h
      simp [mapSet, hk, visitorsSessionCount, List.map_cons, List.sum_cons] at ih ⊢
      rw [ih h2]
      omega

/-- Updating a present key replaces exactly the found value. -/
theorem visitorsSessionCount_mapSet_some {k : String} {v v0 : Visitor} :
    ∀ {m : List (String × Visitor)}, mapGet k m = some v0 →
      visitorsSessionCount (mapSet k v m) + v0.sessions.length =
        visitorsSessionCount m + v.sessions.length := by
  intro m
  induction m with
  | nil =>
    intro h
    simp [mapGet] at h
  | cons q rest ih =>
    intro h
    by_cases hk : (q.1 == k) = true
    · have hv : v0 = q.2 := by
        simp [mapGet, List.find?, hk] at h
        exact h.symm
      simp [mapSet, hk, visitorsSessionCount, List.map_cons, List.sum_cons, hv]
      omega
    · have h2 : mapGet k rest = some v0 := by
        simp [mapGet, List.find?, hk] at h ⊢
        exact h
      simp [mapSet, hk, visitorsSessionCount, List.map_cons, List.sum_cons] at ih ⊢
      have := ih h2
      omega

/-- Each ingestion adds exactly one session across the aggregates. -/
theorem apiTrack_visitorsSessionCount (st : State) (d : TrackData) :
    visitorsSessionCount (apiTrack st d).visitors =
      visitorsSessionCount st.visitors + 1 := by
  unfold apiTrack
  cases hg : mapGet (generateVisitorID d) st.visitors with
  | none =>
    rw [visitorsSessionCount_mapSet_none hg]
    simp
  | some v =>
    have h := visitorsSessionCount_mapSet_some
      (v := { v with visits := v.visits + 1,
                     sessions := v.sessions ++ [mkSession st d] }) hg
    simp [List.length_append] at h
    simp
    omega

/-- Each ingestion preserves the visits-equals-session-count invariant. -/
theorem apiTrack_preserves_visits (st : State) (d : TrackData)
    (h : ∀ p ∈ st.visitors, p.2.visits = p.2.sessions.length) :
    ∀ p ∈ (apiTrack st d).visitors, p.2.visits = p.2.sessions.length := by
  unfold apiTrack
  cases hg : mapGet (generateVisitorID d) st.visitors with
  | none =>
    intro p hp
    rcases mem_mapSet hp with rfl | hp2
    · rfl
    · exact h p hp2
  | some v =>
    intro p hp
    rcases mem_mapSet hp with rfl | hp2
    · obtain ⟨k2, hm⟩ := mapGet_eq_some_mem hg
      have hv := h (k2, v) hm
      simp at hv ⊢
      omega
    · exact h p hp2

/-! ### C5: global log length -/

/-- Auxiliary: the log grows by one per ingestion, from any start state. -/
theorem foldl_apiTrack_sessions_length (ds : List TrackData) :
    ∀ st : State, (List.foldl apiTrack st ds).sessions.length =
      st.sessions.length + ds.length := by
  induction ds with
  | nil => intro st; simp
  | cons d ds ih =>
    intro st
    have h1 : (apiTrack st d).sessions.length = st.sessions.length + 1 := by
      rw [apiTrack_sessions]
      simp
    simp only [List.foldl_cons, List.length_cons]
    rw [ih (apiTrack st d), h1]
    omega

/-- C5: after `M` successful ingestions the GlobalSessionLog has length
exactly `M`; each ingestion appends exactly one record and never removes
or reorders existing entries (the old log is a prefix of the new one). -/
theorem sessions_length_eq_ingestions (ds : List TrackData) :
    (List.foldl apiTrack state0 ds).sessions.length = ds.length ∧
      ∀ (st : State) (d : TrackData),
        (apiTrack st d).sessions = st.sessions ++ [mkSession st d] := by
  constructor
  · rw [foldl_apiTrack_sessions_length]
    simp [state0]
  · exact apiTrack_sessions

/-! ### C8: visit counter equals session count -/

/-- C8: after every sequence of ingestions, every visitor aggregate's
visit counter equals the length of its session list. -/
theorem visits_eq_sessions_length (ds : List TrackData) (p : String × Visitor)
    (hp : p ∈ (List.foldl apiTrack state0 ds).visitors) :
    p.2.visits = p.2.sessions.length := by
  suffices h : ∀ st : State,
      (∀ q ∈ st.visitors, q.2.visits = q.2.sessions.length) →
      ∀ q ∈ (List.foldl apiTrack st ds).visitors, q.2.visits = q.2.sessions.length by
    exact h state0 (by intro q hq; simp [state0] at hq) p hp
  clear hp
  induction ds with
  | nil => intro st h q hq; exact h q hq
  | cons d ds ih =>
    intro st h q hq
    exact ih (apiTrack st d) (apiTrack_preserves_visits st d h) q hq

/-- Witness for C8: the single aggregate created by one concrete ingestion
has counter 1 and one stored session. -/
theorem visits_eq_sessions_length_witness :
    ((List.foldl apiTrack state0 [sampleA]).visitors.headI ∈
        (List.foldl apiTrack state0 [sampleA]).visitors) ∧
      ((List.foldl apiTrack state0 [sampleA]).visitors.headI.2.visits =
        (List.foldl apiTrack state0 [sampleA]).visitors.headI.2.sessions.length) :=
  ⟨by decide, visits_eq_sessions_length [sampleA] _ (by decide)⟩

/-! ### C9: aggregates partition the global log -/

/-- C9: every stored session sits in exactly one visitor aggregate — after
any sequence of ingestions the sum of the aggregates' session-list lengths
equals the length of the GlobalSessionLog. -/
theorem sum_visitor_sessions_eq_log_length (ds : List TrackData) :
    visitorsSessionCount (List.foldl apiTrack state0 ds).visitors =
      (List.foldl apiTrack state0 ds).sessions.length := by
  suffices h : ∀ st : State,
      visitorsSessionCount st.visitors = st.sessions.length →
      visitorsSessionCount (List.foldl apiTrack st ds).visitors =
        (List.foldl apiTrack st ds).sessions.length by
    exact h state0 rfl
  induction ds with
  | nil => intro st h; exact h
  | cons d ds ih =>
    intro st h
    apply ih (apiTrack st d)
    rw [apiTrack_visitorsSessionCount, apiTrack_sessions]
    simp [h]

/-! ### C6 and C10: the recent-sessions query -/

/-- Slicing the last `k` elements (`slice(-k)` with `k ≥ 1`) and reversing
yields the first `k` elements of the reversed list. -/
theorem jsSlice_neg_reverse {α : Type} (xs : List α) (k : Nat) (hk : 1 ≤ k) :
    (jsSlice xs (-(k : Int))).reverse = xs.reverse.take k := by
  have hneg : (-(k : Int)) < 0 := by omega
  have htn : (max ((xs.length : Int) + -(k : Int)) 0).toNat = xs.length - k := by
    omega
  simp only [jsSlice, if_pos hneg]
  rw [htn, List.take_reverse]

/-- Evaluation of the limit computation when the parameter parses to a
nonzero integer. -/
theorem apiSessions_parsed (log : List SessionRecord) (q : Option String) (n : Int)
    (h : q.bind parseIntJS = some n) (hn : (n == 0) = false) :
    apiSessions log q = (jsSlice log (-n)).reverse := by
  unfold apiSessions
  rw [h]
  simp [hn]

/-- Evaluation of the limit computation when the parameter is absent or
does not parse: the default of 50 applies. -/
theorem apiSessions_unparsed (log : List SessionRecord) (q : Option String)
    (h : q.bind parseIntJS = none) :
    apiSessions log q = (jsSlice log (-50)).reverse := by
  unfold apiSessions
  rw [h]

/-- C6: with `M` stored records, `GET /api/sessions?limit=N` (for a limit
parameter parsing to `N ≥ 1`) returns the most-recent-first prefix of
length `min N M` of the log, and an absent limit behaves as the default
`N = 50`. -/
theorem apiSessions_take_min (log : List SessionRecord) (s : String) (n : Int)
    (hp : parseIntJS s = some n) (hn : 1 ≤ n) :
    apiSessions log (some s) = log.reverse.take n.toNat ∧
      (apiSessions log (some s)).length = min n.toNat log.length ∧
      apiSessions log none = log.reverse.take 50 := by
  have hn0 : (n == 0) = false := by
    simp
    omega
  have hmain : apiSessions log (some s) = log.reverse.take n.toNat := by
    rw [apiSessions_parsed log (some s) n hp hn0]
    have hneg : (-n) = (-(n.toNat : Int)) := by omega
    rw [hneg]
    exact jsSlice_neg_reverse log n.toNat (by omega)
  refine ⟨hmain, ?_, ?_⟩
  · rw [hmain]
    simp
  · rw [apiSessions_unparsed log none rfl]
    exact jsSlice_neg_reverse log 50 (by norm_num)

/-- Witness for C6 at a concrete input: a one-record log queried with
`limit=1`. -/
theorem apiSessions_take_min_witness :
    parseIntJS "1" = some 1 ∧ (1 : Int) ≤ 1 ∧
      (apiSessions (apiTrack state0 sampleA).sessions (some "1") =
          (apiTrack state0 sampleA).sessions.reverse.take (1 : Int).toNat ∧
        (apiSessions (apiTrack state0 sampleA).sessions (some "1")).length =
          min (1 : Int).toNat (apiTrack state0 sampleA).sessions.length ∧
        apiSessions (apiTrack state0 sampleA).sessions none =
          (apiTrack state0 sampleA).sessions.reverse.take 50) :=
  ⟨by decide, by decide,
    apiSessions_take_min (apiTrack state0 sampleA).sessions "1" 1 (by decide) (by decide)⟩

/-- C10: a limit parameter that is absent, fails to parse, or parses to 0
falls back to the default of 50: the response equals that of an explicit
`limit=50` request. -/
theorem apiSessions_default_limit (log : List SessionRecord) (s1 s2 : String)
    (h1 : parseIntJS s1 = none) (h2 : parseIntJS s2 = some 0) :
    apiSessions log none = apiSessions log (some "50") ∧
      apiSessions log (some s1) = apiSessions log (some "50") ∧
      apiSessions log (some s2) = apiSessions log (some "50") := by
  have h50 : parseIntJS "50" = some 50 := by decide
  unfold apiSessions
  simp [h1, h2, h50]

/-- Witness for C10 at concrete inputs: `limit=abc` does not parse and
`limit=0` parses to zero. -/
theorem apiSessions_default_limit_witness :
    parseIntJS "abc" = none ∧ parseIntJS "0" = some 0 ∧
      (apiSessions (apiTrack state0 sampleA).sessions none =
          apiSessions (apiTrack state0 sampleA).sessions (some "50") ∧
        apiSessions (apiTrack state0 sampleA).sessions (some "abc") =
          apiSessions (apiTrack state0 sampleA).sessions (some "50") ∧
        apiSessions (apiTrack state0 sampleA).sessions (some "0") =
          apiSessions (apiTrack state0 sampleA).sessions (some "50")) :=
  ⟨by decide, by decide,
    apiSessions_default_limit (apiTrack state0 sampleA).sessions "abc" "0"
      (by decide) (by decide)⟩

/-! ### C4: the geolocation resolver -/

/-- C4 counterexample: when all three providers fail at the network level,
`fetchIPData` does not return a record — the tertiary tier's throw
propagates out of the function (its code runs inside the secondary catch
block with no try of its own). -/
theorem fetchIPData_all_fail_error :
    geoOk (fetchIPData none none none) = false ∧
      fetchIPData none none none = Except.error "fetch failed" :=
  ⟨rfl, rfl⟩

/-- C4 amended: `fetchIPData` returns a record exactly when at least one
tier succeeds (primary: HTTP ok, no error flag, truthy IP; secondary: HTTP
ok and status "success"; tertiary: HTTP ok and truthy IP); when only the
tertiary succeeds the result is the all-sentinel record plus the IP.  When
every tier fails, the exception propagates. -/
theorem fetchIPData_ok_iff (p : ProviderOutcome IpapiBody)
    (s : ProviderOutcome IpApiComBody) (t : ProviderOutcome IpifyBody) :
    (geoOk (fetchIPData p s t) =
        (tier1Success p || tier2Success s || tier3Success t)) ∧
      (∀ b : IpifyBody, tier1Success p = false → tier2Success s = false →
        t = some (true, b) → truthy b.ip = true →
        fetchIPData p s t = Except.ok (sentinelGeo b.ip)) := by
  have htier3 : ∀ t2 : ProviderOutcome IpifyBody,
      geoOk (ipifyTier t2) = tier3Success t2 := by
    intro t2
    rcases t2 with _ | ⟨ok3, b3⟩
    · rfl
    · cases ok3
      · rfl
      · by_cases h3 : truthy b3.ip = true
        · simp [ipifyTier, tier3Success, h3, geoOk]
        · simp at h3
          simp [ipifyTier, tier3Success, h3, geoOk]
  have htier2 : ∀ (s2 : ProviderOutcome IpApiComBody) (t2 : ProviderOutcome IpifyBody),
      geoOk (ipApiComTier s2 t2) = (tier2Success s2 || tier3Success t2) := by
    intro s2 t2
    rcases s2 with _ | ⟨ok2, b2⟩
    · simp [ipApiComTier, tier2Success, htier3]
    · cases ok2
      · simp [ipApiComTier, tier2Success, htier3]
      · by_cases h2 : (b2.status == "success") = true
        · simp [ipApiComTier, tier2Success, h2, geoOk]
        · simp at h2
          simp [ipApiComTier, tier2Success, h2, htier3]
  constructor
  · rcases p with _ | ⟨ok1, b1⟩
    · simp [fetchIPData, tier1Success, htier2]
    · cases ok1
      · simp [fetchIPData, tier1Success, htier2]
      · by_cases h1 : (!b1.error && truthy b1.geo.ip) = true
        · simp [fetchIPData, tier1Success, h1, geoOk]
        · simp only [Bool.not_eq_true] at h1
          simp [fetchIPData, tier1Success, h1, htier2]
  · intro b hp1 hp2 ht hb
    subst ht
    have hstep3 : ipifyTier (some (true, b)) = Except.ok (sentinelGeo b.ip) := by
      simp [ipifyTier, hb]
    have hstep2 : ipApiComTier s (some (true, b)) = Except.ok (sentinelGeo b.ip) := by
      rcases s with _ | ⟨ok2, b2⟩
      · simp [ipApiComTier, hstep3]
      · cases ok2
        · simp [ipApiComTier, hstep3]
        · have h2 : (b2.status == "success") = false := by
            simpa [tier2Success] using hp2
          simp [ipApiComTier, h2, hstep3]
    rcases p with _ | ⟨ok1, b1⟩
    · simp [fetchIPData, hstep2]
    · cases ok1
      · simp [fetchIPData, hstep2]
      · have h1 : (!b1.error && truthy b1.geo.ip) = false := by
          simpa [tier1Success] using hp1
        simp [fetchIPData, h1, hstep2]

/-- Witness for C4 (amended) at a concrete input: primary and secondary
fail at the network level, the tertiary answers with an IP, and the result
is the sentinel record carrying that IP. -/
theorem fetchIPData_ok_iff_witness :
    tier1Success none = false ∧ tier2Success none = false ∧
      truthy ipifySample.ip = true ∧
      fetchIPData none none (some (true, ipifySample)) =
        Except.ok (sentinelGeo ipifySample.ip) :=
  ⟨rfl, rfl, rfl,
    (fetchIPData_ok_iff none none (some (true, ipifySample))).2 ipifySample
      rfl rfl rfl rfl⟩

/-! ### C7: the stats return rate -/

/-- C7 counterexample: with no visitors the endpoint returns the plain
string "0%" (the number 0 concatenated with '%'), not a one-decimal
percentage. -/
theorem returnRate_zero_format_counterexample :
    statsReturnRate state0 = "0%" ∧ statsReturnRate state0 ≠ "0.0%" := by
  refine ⟨rfl, ?_⟩
  decide

/-- C7 amended: the return rate is `returningVisitors / uniqueVisitors`
(returning = visitors with counter above 1) formatted as a one-decimal
percentage whenever there is at least one visitor, and the bare string
"0%" when there are none; ingesting visitor A twice and visitor B once
yields the string "50.0%". -/
theorem returnRate_spec (st : State) :
    (st.visitors.length = 0 → statsReturnRate st = "0%") ∧
      (0 < st.visitors.length →
        statsReturnRate st =
          toFixed1 (countReturning st.visitors * 100) st.visitors.length ++ "%") ∧
      statsReturnRate (List.foldl apiTrack state0 [sampleA, sampleA2, sampleB]) =
        "50.0%" := by
  refine ⟨?_, ?_, ?_⟩
  · intro h
    simp [statsReturnRate, h]
  · intro h
    simp [statsReturnRate, h]
  · decide

/-- Witness for C7 (amended) at a concrete input: the A-twice-B-once state
has two visitors and its rate is computed by the one-decimal formula. -/
theorem returnRate_spec_witness :
    0 < (List.foldl apiTrack state0 [sampleA, sampleA2, sampleB]).visitors.length ∧
      statsReturnRate (List.foldl apiTrack state0 [sampleA, sampleA2, sampleB]) =
        toFixed1
          (countReturning (List.foldl apiTrack state0 [sampleA, sampleA2, sampleB]).visitors * 100)
          (List.foldl apiTrack state0 [sampleA, sampleA2, sampleB]).visitors.length ++ "%" :=
  ⟨by decide,
    (returnRate_spec (List.foldl apiTrack state0 [sampleA, sampleA2, sampleB])).2.1
      (by decide)⟩
